import Mathlib

/-!
Verification of the manifest-reconciliation core of
`src/lambda/k8s-manifest-applier/index-simple.py`: the per-kind dispatch in
`apply_manifest`, the read-then-create-or-replace protocol, and the batch
aggregation in `lambda_handler`.

The Kubernetes API client is modelled as an oracle `Client : K8sOp → Except Exc Unit`:
each call the Python code issues (`read_namespaced_*`, `replace_namespaced_*`,
`create_namespaced_*`, `create_namespace`) becomes one `K8sOp`, and the oracle
decides whether the call returns normally or raises.  Exceptions are the sum of
`ApiException` (carrying an HTTP status, as in `kubernetes.client.rest`) and any
other Python exception; `apply_manifest` distinguishes them exactly as the two
`except` clauses of the source do.  The embedded `apply_manifest` additionally
returns the list of API calls it issued, in order, so that call-count claims are
statable.
-/

namespace K8sApplier

/-- Exceptions an API call can raise: `apiExc` models
`kubernetes.client.rest.ApiException` with its HTTP `status` and reason;
`otherExc` models any other Python exception. -/
inductive Exc where
  | apiExc (status : Nat) (reason : String)
  | otherExc (msg : String)
deriving DecidableEq, Repr

/-- Model of Python `str(e)` as used at lines 147 and 150 of the source:
for `ApiException` the standard `__str__` leads with the status and reason;
for other exceptions it is the exception message. -/
def Exc.str : Exc → String
  | apiExc s r => "(" ++ toString s ++ ")" ++ "\nReason: " ++ r
  | otherExc m => m

/-- The `metadata` mapping of a manifest: `manifest.get('metadata', {})` with
`metadata.get('name')` and `metadata.get('namespace', 'default')`. -/
structure Metadata where
  name : Option String
  «namespace» : Option String
deriving DecidableEq, Repr

/-- A parsed YAML manifest as `apply_manifest` reads it: `kind`, `apiVersion`
and `metadata` are looked up with `.get` (absent keys give `None`); the whole
structured value is the body passed to the API calls. -/
structure Manifest where
  kind : Option String
  apiVersion : Option String
  metadata : Metadata
deriving DecidableEq, Repr

/-- One Kubernetes API call issued by `apply_manifest`.  `createNamespace`
is `api.create_namespace(body=manifest)`; the three namespaced constructors
carry the kind string selecting the concrete client method
(`read_namespaced_config_map`, `replace_namespaced_service_account`, ...). -/
inductive K8sOp where
  | createNamespace (body : Manifest)
  | readNamespaced (kind : String) (name : Option String) (ns : String)
  | replaceNamespaced (kind : String) (name : Option String) (ns : String) (body : Manifest)
  | createNamespaced (kind : String) (ns : String) (body : Manifest)
deriving DecidableEq, Repr

/-- The API-client oracle: for each issued call, either return normally
(`ok`) or raise an exception (`error`). -/
abbrev Client := K8sOp → Except Exc Unit

/-- The dictionary `apply_manifest` returns for one manifest:
`{'status': ...}` plus the optional `reason` (skipped) / `error` keys. -/
structure ApplyResult where
  status : String
  reason : Option String := none
  error : Option String := none
deriving DecidableEq, Repr

/-- Python `f"...{x}..."` rendering of a value that may be `None`. -/
def pyOptStr : Option String → String
  | none => "None"
  | some s => s

/-- The outer two `except` clauses of `apply_manifest` (lines 145-150):
an `ApiException` yields `{'status': 'failed', 'error': str(e)}`, any other
exception yields `{'status': 'error', 'error': str(e)}`. -/
def excResult (e : Exc) : ApplyResult :=
  match e with
  | .apiExc _ _ => { status := "failed", error := some e.str }
  | .otherExc _ => { status := "error", error := some e.str }

/-- The inner `except ApiException as e: if e.status == 404` test: true
exactly when the raised exception is an `ApiException` (the class the inner
handler catches) whose status is 404.  A non-`ApiException` is never caught
by the inner handler and a non-404 `ApiException` is re-raised; either way
the exception reaches the outer handlers. -/
def caughtNotFound : Exc → Bool
  | .apiExc s _ => s == 404
  | .otherExc _ => false

/-- The shared read-then-replace-or-create block that the source repeats for
ConfigMap, ServiceAccount and StatefulSet (lines 108-137): the inner `try`
spans both the `read(name, namespace)` and, when the read returns, the
`replace(name, namespace, body)`; an `ApiException` with status 404 raised
by either is caught and answered with `create(namespace, body)`; any other
exception reaches the outer handlers (`excResult`), as does any exception the
create itself raises.  Also returns the calls issued, in order. -/
def applyNamespacedKind (c : Client) (kind : String) (name : Option String)
    (ns : String) (body : Manifest) : ApplyResult × List K8sOp :=
  match c (.readNamespaced kind name ns) with
  | .ok _ =>
    match c (.replaceNamespaced kind name ns body) with
    | .ok _ =>
      ({ status := "success" },
        [.readNamespaced kind name ns, .replaceNamespaced kind name ns body])
    | .error e =>
      if caughtNotFound e then
        match c (.createNamespaced kind ns body) with
        | .ok _ =>
          ({ status := "success" },
            [.readNamespaced kind name ns, .replaceNamespaced kind name ns body,
             .createNamespaced kind ns body])
        | .error e2 =>
          (excResult e2,
            [.readNamespaced kind name ns, .replaceNamespaced kind name ns body,
             .createNamespaced kind ns body])
      else
        (excResult e,
          [.readNamespaced kind name ns, .replaceNamespaced kind name ns body])
  | .error e =>
    if caughtNotFound e then
      match c (.createNamespaced kind ns body) with
      | .ok _ =>
        ({ status := "success" },
          [.readNamespaced kind name ns, .createNamespaced kind ns body])
      | .error e2 =>
        (excResult e2,
          [.readNamespaced kind name ns, .createNamespaced kind ns body])
    else (excResult e, [.readNamespaced kind name ns])

/-- `apply_manifest` (lines 93-150): resolve `kind`, `name` and the
namespace default, dispatch on the kind by the source's `if/elif` equality
chain, and classify the outcome.  Unsupported kinds (including a missing
`kind`, which compares as `None`) return the skipped result without issuing
any API call. -/
def apply_manifest (c : Client) (manifest : Manifest) : ApplyResult × List K8sOp :=
  let kind := manifest.kind
  let name := manifest.metadata.name
  let ns := manifest.metadata.«namespace».getD "default"
  if kind = some "Namespace" then
    match c (.createNamespace manifest) with
    | .ok _ => ({ status := "success" }, [.createNamespace manifest])
    | .error e => (excResult e, [.createNamespace manifest])
  else if kind = some "ConfigMap" then
    applyNamespacedKind c "ConfigMap" name ns manifest
  else if kind = some "ServiceAccount" then
    applyNamespacedKind c "ServiceAccount" name ns manifest
  else if kind = some "StatefulSet" then
    applyNamespacedKind c "StatefulSet" name ns manifest
  else
    ({ status := "skipped", reason := some ("Unsupported kind: " ++ pyOptStr kind) }, [])

/-- One entry of the `results` list built by `lambda_handler` (lines
179-184): source file, kind, name, merged with the `apply_manifest` result. -/
structure ItemRecord where
  file : String
  kind : Option String
  name : Option String
  status : String
  reason : Option String := none
  error : Option String := none
deriving DecidableEq, Repr

/-- `{'file': manifest_file, 'kind': ..., 'name': ..., **result}`. -/
def mkItemRecord (file : String) (m : Manifest) (r : ApplyResult) : ItemRecord :=
  { file := file, kind := m.kind, name := m.metadata.name,
    status := r.status, reason := r.reason, error := r.error }

/-- The failure filter of line 187: `r['status'] in ['failed', 'error']`. -/
def isFailedStatus (r : ItemRecord) : Bool :=
  r.status == "failed" || r.status == "error"

/-- The Lambda response envelope: HTTP-style status code plus the JSON body
fields the handler actually sets (`message`, optional `results`, optional
`error`). -/
structure Response where
  statusCode : Nat
  message : String
  results : Option (List ItemRecord) := none
  error : Option String := none
deriving DecidableEq, Repr

/-- `lambda_handler` (lines 152-217).  Obtaining the API client
(`get_k8s_client`) and the manifest set (`download_manifests`) are external
collaborators; each is passed in as an `Except` value, an `error` meaning the
call raised.  A raised pre-batch step hits the top-level `except` (lines
206-217) before any reconciliation.  Otherwise: empty manifest set returns
the distinguished 200 response; else every manifest is applied in order, the
records are collected, and the code is 500 exactly when some record's status
is `failed` or `error`. -/
def lambda_handler (k8sClientRes : Except String Client)
    (manifestsRes : Except String (List (String × Manifest))) : Response :=
  match k8sClientRes with
  | .error e => { statusCode := 500, message := "Error applying manifests", error := some e }
  | .ok c =>
    match manifestsRes with
    | .error e => { statusCode := 500, message := "Error applying manifests", error := some e }
    | .ok manifests =>
      if manifests.isEmpty then
        { statusCode := 200, message := "No manifest files found in S3" }
      else
        let results := manifests.map (fun p => mkItemRecord p.1 p.2 (apply_manifest c p.2).1)
        let failed := results.filter isFailedStatus
        if failed.isEmpty then
          { statusCode := 200,
            message := "Successfully applied " ++ toString results.length ++ " manifest(s)",
            results := some results }
        else
          { statusCode := 500,
            message := toString failed.length ++ " manifest(s) failed to apply",
            results := some results }

/-- Fake API client per the collaborator contract of the spec (§4.2): tracks
existence by `(kind, namespace, name)` triples (namespace objects recorded
under kind `"Namespace"` with namespace `""`).  Reads and replaces of an
absent resource raise a 404 `ApiException`; creates of a present resource
raise a 409 conflict; a call with a `None` name raises the client library's
parameter-validation error, which is not an `ApiException`. -/
def fakeClient (st : List (String × String × String)) : Client := fun op =>
  match op with
  | .createNamespace body =>
    match body.metadata.name with
    | some n =>
      if ("Namespace", "", n) ∈ st then .error (.apiExc 409 "Conflict") else .ok ()
    | none => .error (.otherExc "Missing the required parameter")
  | .readNamespaced k n ns =>
    match n with
    | some nm =>
      if (k, ns, nm) ∈ st then .ok () else .error (.apiExc 404 "Not Found")
    | none => .error (.otherExc "Missing the required parameter")
  | .replaceNamespaced k n ns _ =>
    match n with
    | some nm =>
      if (k, ns, nm) ∈ st then .ok () else .error (.apiExc 404 "Not Found")
    | none => .error (.otherExc "Missing the required parameter")
  | .createNamespaced k ns body =>
    match body.metadata.name with
    | some nm =>
      if (k, ns, nm) ∈ st then .error (.apiExc 409 "Conflict") else .ok ()
    | none => .error (.otherExc "Missing the required parameter")

/-! Helper lemmas shared by the claim theorems. -/

lemma excResult_status (e : Exc) :
    (excResult e).status = "failed" ∨ (excResult e).status = "error" := by
  cases e
  · exact Or.inl rfl
  · exact Or.inr rfl

lemma excResult_status_ne_success (e : Exc) : (excResult e).status ≠ "success" := by
  cases e <;> simp [excResult]

lemma excResult_status_ne_skipped (e : Exc) : (excResult e).status ≠ "skipped" := by
  cases e <;> simp [excResult]

lemma excResult_error (e : Exc) : (excResult e).error = some e.str := by
  cases e <;> rfl

lemma applyNamespacedKind_trace_head (c : Client) (k : String) (n : Option String)
    (ns : String) (b : Manifest) :
    (applyNamespacedKind c k n ns b).2.head? = some (K8sOp.readNamespaced k n ns) := by
  rcases hr : c (K8sOp.readNamespaced k n ns) with e | u
  · by_cases h4 : caughtNotFound e = true
    · rcases hc : c (K8sOp.createNamespaced k ns b) with e3 | u3 <;>
        simp [applyNamespacedKind, hr, h4, hc]
    · simp [applyNamespacedKind, hr, h4]
  · rcases hp : c (K8sOp.replaceNamespaced k n ns b) with e2 | u2
    · by_cases h4 : caughtNotFound e2 = true
      · rcases hc : c (K8sOp.createNamespaced k ns b) with e3 | u3 <;>
          simp [applyNamespacedKind, hr, hp, h4, hc]
      · simp [applyNamespacedKind, hr, hp, h4]
    · simp [applyNamespacedKind, hr, hp]

lemma applyNamespacedKind_status (c : Client) (k : String) (n : Option String)
    (ns : String) (b : Manifest) :
    (applyNamespacedKind c k n ns b).1.status = "success"
    ∨ (applyNamespacedKind c k n ns b).1.status = "failed"
    ∨ (applyNamespacedKind c k n ns b).1.status = "error" := by
  rcases hr : c (K8sOp.readNamespaced k n ns) with e | u
  · by_cases h4 : caughtNotFound e = true
    · rcases hc : c (K8sOp.createNamespaced k ns b) with e3 | u3
      · rcases excResult_status e3 with h | h <;>
          simp [applyNamespacedKind, hr, h4, hc, h]
      · simp [applyNamespacedKind, hr, h4, hc]
    · rcases excResult_status e with h | h <;>
        simp [applyNamespacedKind, hr, h4, h]
  · rcases hp : c (K8sOp.replaceNamespaced k n ns b) with e2 | u2
    · by_cases h4 : caughtNotFound e2 = true
      · rcases hc : c (K8sOp.createNamespaced k ns b) with e3 | u3
        · rcases excResult_status e3 with h | h <;>
            simp [applyNamespacedKind, hr, hp, h4, hc, h]
        · simp [applyNamespacedKind, hr, hp, h4, hc]
      · rcases excResult_status e2 with h | h <;>
          simp [applyNamespacedKind, hr, hp, h4, h]
    · simp [applyNamespacedKind, hr, hp]

lemma applyNamespacedKind_failure_src (c : Client) (k : String) (n : Option String)
    (ns : String) (b : Manifest) :
    ((applyNamespacedKind c k n ns b).1.status = "failed" ∨
      (applyNamespacedKind c k n ns b).1.status = "error") →
    ∃ op e, op ∈ (applyNamespacedKind c k n ns b).2 ∧ c op = Except.error e ∧
      (applyNamespacedKind c k n ns b).1.error = some e.str := by
  rcases hr : c (K8sOp.readNamespaced k n ns) with e | u
  · by_cases h4 : caughtNotFound e = true
    · rcases hc : c (K8sOp.createNamespaced k ns b) with e3 | u3
      · have heq : applyNamespacedKind c k n ns b =
            (excResult e3, [K8sOp.readNamespaced k n ns, K8sOp.createNamespaced k ns b]) := by
          simp [applyNamespacedKind, hr, h4, hc]
        rw [heq]
        intro _
        exact ⟨K8sOp.createNamespaced k ns b, e3, by simp, hc, excResult_error e3⟩
      · have heq : applyNamespacedKind c k n ns b =
            ({ status := "success" },
              [K8sOp.readNamespaced k n ns, K8sOp.createNamespaced k ns b]) := by
          simp [applyNamespacedKind, hr, h4, hc]
        rw [heq]
        intro h
        rcases h with h | h <;> simp at h
    · have heq : applyNamespacedKind c k n ns b =
          (excResult e, [K8sOp.readNamespaced k n ns]) := by
        simp [applyNamespacedKind, hr, h4]
      rw [heq]
      intro _
      exact ⟨K8sOp.readNamespaced k n ns, e, by simp, hr, excResult_error e⟩
  · rcases hp : c (K8sOp.replaceNamespaced k n ns b) with e2 | u2
    · by_cases h4 : caughtNotFound e2 = true
      · rcases hc : c (K8sOp.createNamespaced k ns b) with e3 | u3
        · have heq : applyNamespacedKind c k n ns b =
              (excResult e3, [K8sOp.readNamespaced k n ns, K8sOp.replaceNamespaced k n ns b,
                K8sOp.createNamespaced k ns b]) := by
            simp [applyNamespacedKind, hr, hp, h4, hc]
          rw [heq]
          intro _
          exact ⟨K8sOp.createNamespaced k ns b, e3, by simp, hc, excResult_error e3⟩
        · have heq : applyNamespacedKind c k n ns b =
              ({ status := "success" },
                [K8sOp.readNamespaced k n ns, K8sOp.replaceNamespaced k n ns b,
                  K8sOp.createNamespaced k ns b]) := by
            simp [applyNamespacedKind, hr, hp, h4, hc]
          rw [heq]
          intro h
          rcases h with h | h <;> simp at h
      · have heq : applyNamespacedKind c k n ns b =
            (excResult e2, [K8sOp.readNamespaced k n ns, K8sOp.replaceNamespaced k n ns b]) := by
          simp [applyNamespacedKind, hr, hp, h4]
        rw [heq]
        intro _
        exact ⟨K8sOp.replaceNamespaced k n ns b, e2, by simp, hp, excResult_error e2⟩
    · have heq : applyNamespacedKind c k n ns b =
          ({ status := "success" },
            [K8sOp.readNamespaced k n ns, K8sOp.replaceNamespaced k n ns b]) := by
        simp [applyNamespacedKind, hr, hp]
      rw [heq]
      intro h
      rcases h with h | h <;> simp at h

lemma apply_manifest_cases (c : Client) (m : Manifest) :
    (m.kind = some "Namespace" ∧
      ((∃ u, c (K8sOp.createNamespace m) = Except.ok u ∧
          apply_manifest c m = ({ status := "success" }, [K8sOp.createNamespace m]))
        ∨ (∃ e, c (K8sOp.createNamespace m) = Except.error e ∧
          apply_manifest c m = (excResult e, [K8sOp.createNamespace m]))))
    ∨ (∃ k, m.kind = some k ∧
        (k = "ConfigMap" ∨ k = "ServiceAccount" ∨ k = "StatefulSet") ∧
        apply_manifest c m = applyNamespacedKind c k m.metadata.name
          (m.metadata.«namespace».getD "default") m)
    ∨ ((m.kind ≠ some "Namespace" ∧ m.kind ≠ some "ConfigMap" ∧
        m.kind ≠ some "ServiceAccount" ∧ m.kind ≠ some "StatefulSet") ∧
        apply_manifest c m =
          ({ status := "skipped",
             reason := some ("Unsupported kind: " ++ pyOptStr m.kind) }, [])) := by
  by_cases h1 : m.kind = some "Namespace"
  · refine Or.inl ⟨h1, ?_⟩
    rcases hc : c (K8sOp.createNamespace m) with e | u
    · exact Or.inr ⟨e, rfl, by simp [apply_manifest, h1, hc]⟩
    · exact Or.inl ⟨u, rfl, by simp [apply_manifest, h1, hc]⟩
  · by_cases h2 : m.kind = some "ConfigMap"
    · exact Or.inr (Or.inl ⟨"ConfigMap", h2, Or.inl rfl,
        by simp [apply_manifest, h1, h2]⟩)
    · by_cases h3 : m.kind = some "ServiceAccount"
      · exact Or.inr (Or.inl ⟨"ServiceAccount", h3, Or.inr (Or.inl rfl),
          by simp [apply_manifest, h1, h2, h3]⟩)
      · by_cases h4 : m.kind = some "StatefulSet"
        · exact Or.inr (Or.inl ⟨"StatefulSet", h4, Or.inr (Or.inr rfl),
            by simp [apply_manifest, h1, h2, h3, h4]⟩)
        · exact Or.inr (Or.inr ⟨⟨h1, h2, h3, h4⟩,
            by simp [apply_manifest, h1, h2, h3, h4]⟩)

lemma apply_manifest_status (c : Client) (m : Manifest) :
    (apply_manifest c m).1.status = "success" ∨ (apply_manifest c m).1.status = "skipped"
    ∨ (apply_manifest c m).1.status = "failed" ∨ (apply_manifest c m).1.status = "error" := by
  rcases apply_manifest_cases c m with ⟨_, hcase⟩ | ⟨k, _, _, heq⟩ | ⟨_, heq⟩
  · rcases hcase with ⟨u, _, heq⟩ | ⟨e, _, heq⟩
    · rw [heq]
      exact Or.inl rfl
    · rw [heq]
      rcases excResult_status e with h | h
      · exact Or.inr (Or.inr (Or.inl h))
      · exact Or.inr (Or.inr (Or.inr h))
  · rw [heq]
    rcases applyNamespacedKind_status c k m.metadata.name
        (m.metadata.«namespace».getD "default") m with h | h | h
    · exact Or.inl h
    · exact Or.inr (Or.inr (Or.inl h))
    · exact Or.inr (Or.inr (Or.inr h))
  · rw [heq]
    exact Or.inr (Or.inl rfl)

lemma apply_manifest_failure_src (c : Client) (m : Manifest) :
    ((apply_manifest c m).1.status = "failed" ∨ (apply_manifest c m).1.status = "error") →
    ∃ op e, op ∈ (apply_manifest c m).2 ∧ c op = Except.error e ∧
      (apply_manifest c m).1.error = some e.str := by
  rcases apply_manifest_cases c m with ⟨_, hcase⟩ | ⟨k, _, _, heq⟩ | ⟨_, heq⟩
  · rcases hcase with ⟨u, _, heq⟩ | ⟨e, hc, heq⟩
    · rw [heq]
      intro h
      rcases h with h | h <;> simp at h
    · rw [heq]
      intro _
      exact ⟨K8sOp.createNamespace m, e, by simp, hc, excResult_error e⟩
  · rw [heq]
    exact applyNamespacedKind_failure_src c k m.metadata.name
      (m.metadata.«namespace».getD "default") m
  · rw [heq]
    intro h
    rcases h with h | h <;> simp at h

lemma lambda_handler_ok_results (c : Client) (mfs : List (String × Manifest)) :
    (lambda_handler (Except.ok c) (Except.ok mfs)).results.getD [] =
      mfs.map (fun p => mkItemRecord p.1 p.2 (apply_manifest c p.2).1) := by
  rcases mfs with _ | ⟨p, rest⟩
  · rfl
  · simp only [lambda_handler, List.isEmpty_cons, Bool.false_eq_true, if_false]
    split <;> rfl

lemma lambda_handler_ok_statusCode (c : Client) (mfs : List (String × Manifest)) :
    (lambda_handler (Except.ok c) (Except.ok mfs)).statusCode =
      if ((mfs.map (fun p => mkItemRecord p.1 p.2 (apply_manifest c p.2).1)).filter
            isFailedStatus).isEmpty then 200 else 500 := by
  rcases mfs with _ | ⟨p, rest⟩
  · rfl
  · simp only [lambda_handler, List.isEmpty_cons, Bool.false_eq_true, if_false]
    split
    · rfl
    · rfl

/-- C1: for each replace-capable namespaced kind (ConfigMap, ServiceAccount,
StatefulSet), applying a definition whose (kind, namespace, name) already
exists in the API client issues exactly one Read followed by exactly one
Replace passing the full definition body — no Create — and yields success. -/
theorem c1_existing_resource_read_then_replace
    (st : List (String × String × String)) (k n : String) (av nso : Option String)
    (hk : k = "ConfigMap" ∨ k = "ServiceAccount" ∨ k = "StatefulSet")
    (hmem : (k, nso.getD "default", n) ∈ st) :
    apply_manifest (fakeClient st) ⟨some k, av, ⟨some n, nso⟩⟩ =
      ({ status := "success" },
        [K8sOp.readNamespaced k (some n) (nso.getD "default"),
         K8sOp.replaceNamespaced k (some n) (nso.getD "default")
           ⟨some k, av, ⟨some n, nso⟩⟩]) := by
  have hr : fakeClient st (K8sOp.readNamespaced k (some n) (nso.getD "default")) =
      Except.ok () := by
    simp [fakeClient, hmem]
  have hp : fakeClient st (K8sOp.replaceNamespaced k (some n) (nso.getD "default")
      ⟨some k, av, ⟨some n, nso⟩⟩) = Except.ok () := by
    simp [fakeClient, hmem]
  rcases hk with h | h | h <;> subst h <;>
    simp [apply_manifest, applyNamespacedKind, hr, hp]

/-- C1 witness: a ConfigMap `cfg` present in namespace `default` is applied
via Read then Replace, successfully. -/
theorem c1_witness :
    apply_manifest (fakeClient [("ConfigMap", "default", "cfg")])
        ⟨some "ConfigMap", none, ⟨some "cfg", none⟩⟩ =
      ({ status := "success" },
        [K8sOp.readNamespaced "ConfigMap" (some "cfg") "default",
         K8sOp.replaceNamespaced "ConfigMap" (some "cfg") "default"
           ⟨some "ConfigMap", none, ⟨some "cfg", none⟩⟩]) := by
  exact c1_existing_resource_read_then_replace
    [("ConfigMap", "default", "cfg")] "ConfigMap" "cfg" none none
    (Or.inl rfl) (by decide)

/-- C2: for each supported namespaced kind, a Read failing with a caught
not-found (`ApiException` 404) is followed by exactly one Create (success
when the Create returns); a Read failing any other way yields the failure
result of the raised exception — a failed outcome — with no Create and no
Replace issued. -/
theorem c2_read_notfound_creates_else_fails
    (k n : String) (av nso : Option String) (c : Client)
    (hk : k = "ConfigMap" ∨ k = "ServiceAccount" ∨ k = "StatefulSet") :
    (∀ r : String,
        c (K8sOp.readNamespaced k (some n) (nso.getD "default")) =
            Except.error (Exc.apiExc 404 r) →
        c (K8sOp.createNamespaced k (nso.getD "default") ⟨some k, av, ⟨some n, nso⟩⟩) =
            Except.ok () →
        apply_manifest c ⟨some k, av, ⟨some n, nso⟩⟩ =
          ({ status := "success" },
            [K8sOp.readNamespaced k (some n) (nso.getD "default"),
             K8sOp.createNamespaced k (nso.getD "default") ⟨some k, av, ⟨some n, nso⟩⟩]))
    ∧ (∀ e : Exc,
        c (K8sOp.readNamespaced k (some n) (nso.getD "default")) = Except.error e →
        caughtNotFound e = false →
        apply_manifest c ⟨some k, av, ⟨some n, nso⟩⟩ =
          (excResult e, [K8sOp.readNamespaced k (some n) (nso.getD "default")])
        ∧ ((excResult e).status = "failed" ∨ (excResult e).status = "error")) := by
  constructor
  · intro r hr hc
    rcases hk with h | h | h <;> subst h <;>
      simp [apply_manifest, applyNamespacedKind, hr, hc, caughtNotFound]
  · intro e he hnf
    refine ⟨?_, excResult_status e⟩
    rcases hk with h | h | h <;> subst h <;>
      simp [apply_manifest, applyNamespacedKind, he, hnf]

/-- C2 witness: a Read answered with a 403 `ApiException` yields the failed
result with no Create and no Replace issued. -/
theorem c2_witness :
    apply_manifest
        (fun op => match op with
          | K8sOp.readNamespaced _ _ _ => Except.error (Exc.apiExc 403 "Forbidden")
          | _ => Except.ok ())
        ⟨some "ConfigMap", none, ⟨some "x", none⟩⟩ =
      (excResult (Exc.apiExc 403 "Forbidden"),
        [K8sOp.readNamespaced "ConfigMap" (some "x") "default"]) := by
  exact ((c2_read_notfound_creates_else_fails "ConfigMap" "x" none none
      (fun op => match op with
        | K8sOp.readNamespaced _ _ _ => Except.error (Exc.apiExc 403 "Forbidden")
        | _ => Except.ok ())
      (Or.inl rfl)).2 (Exc.apiExc 403 "Forbidden") rfl rfl).1

/-- C3: a batch of N manifests yields exactly N records, in input order
(each record is the input item's file/kind/name merged with its apply
result — no short-circuit on failure), the response code is 500 exactly
when at least one record has a failure status, and a skipped record never
counts as a failure. -/
theorem c3_batch_order_and_somefailed (c : Client) (manifests : List (String × Manifest)) :
    ((lambda_handler (Except.ok c) (Except.ok manifests)).results.getD [] =
        manifests.map (fun p => mkItemRecord p.1 p.2 (apply_manifest c p.2).1))
    ∧ ((lambda_handler (Except.ok c) (Except.ok manifests)).statusCode = 500 ↔
        0 < ((manifests.map (fun p => mkItemRecord p.1 p.2 (apply_manifest c p.2).1)).filter
              isFailedStatus).length)
    ∧ (∀ r : ItemRecord, r.status = "skipped" → isFailedStatus r = false) := by
  refine ⟨lambda_handler_ok_results c manifests, ?_, ?_⟩
  · rw [lambda_handler_ok_statusCode]
    by_cases hE : (manifests.map (fun p => mkItemRecord p.1 p.2 (apply_manifest c p.2).1)).filter
        isFailedStatus = []
    · rw [if_pos (by simp [hE])]
      simp [hE]
    · rw [if_neg (by simp [hE])]
      simp [List.length_pos.mpr hE]
  · intro r h
    simp [isFailedStatus, h]

/-- C3 witness: a record with status `skipped` is not counted by the
failure filter. -/
theorem c3_witness :
    isFailedStatus
      ⟨"a.yaml", some "CronTab", some "x", "skipped",
        some "Unsupported kind: CronTab", none⟩ = false := by
  exact (c3_batch_order_and_somefailed (fun _ => Except.ok ()) []).2.2 _ rfl

/-- C4: a definition of an unsupported kind yields the skipped result with
a reason containing the kind name, issues no API call, and its record never
counts as a batch failure. -/
theorem c4_unsupported_kind_skipped (c : Client) (m : Manifest) (k : String)
    (hk : m.kind = some k) (h1 : k ≠ "Namespace") (h2 : k ≠ "ConfigMap")
    (h3 : k ≠ "ServiceAccount") (h4 : k ≠ "StatefulSet") :
    apply_manifest c m =
      ({ status := "skipped", reason := some ("Unsupported kind: " ++ k) }, [])
    ∧ (∃ p q, "Unsupported kind: " ++ k = p ++ k ++ q)
    ∧ (∀ file, isFailedStatus (mkItemRecord file m (apply_manifest c m).1) = false) := by
  have happ : apply_manifest c m =
      ({ status := "skipped", reason := some ("Unsupported kind: " ++ k) }, []) := by
    simp [apply_manifest, hk, h1, h2, h3, h4, pyOptStr]
  refine ⟨happ, ⟨"Unsupported kind: ", "", by simp⟩, ?_⟩
  intro file
  rw [happ]
  simp [isFailedStatus, mkItemRecord]

/-- C4 witness: a CronTab manifest is skipped with the kind named in the
reason and no API call issued. -/
theorem c4_witness :
    apply_manifest (fun _ => Except.ok ()) ⟨some "CronTab", none, ⟨some "x", none⟩⟩ =
      ({ status := "skipped", reason := some ("Unsupported kind: " ++ "CronTab") }, []) := by
  exact (c4_unsupported_kind_skipped (fun _ => Except.ok ())
    ⟨some "CronTab", none, ⟨some "x", none⟩⟩ "CronTab" rfl
    (by decide) (by decide) (by decide) (by decide)).1

/-- C5: a Namespace definition is applied by a single unconditional Create —
no Read precedes it — and a 409 conflict on re-creating an existing
namespace yields status `failed`, not success. -/
theorem c5_cluster_scoped_create_unconditional (c : Client) (m : Manifest)
    (h : m.kind = some "Namespace") :
    (apply_manifest c m).2 = [K8sOp.createNamespace m]
    ∧ (∀ r : String, c (K8sOp.createNamespace m) = Except.error (Exc.apiExc 409 r) →
        (apply_manifest c m).1.status = "failed" ∧
        (apply_manifest c m).1.status ≠ "success") := by
  constructor
  · rcases hc : c (K8sOp.createNamespace m) with e | u <;>
      simp [apply_manifest, h, hc]
  · intro r hc
    have hres : (apply_manifest c m).1 = excResult (Exc.apiExc 409 r) := by
      simp [apply_manifest, h, hc]
    rw [hres]
    exact ⟨rfl, excResult_status_ne_success _⟩

/-- C5 witness: re-creating an existing namespace `app` against a
conflicting client issues only the Create and fails. -/
theorem c5_witness :
    (apply_manifest (fun _ => Except.error (Exc.apiExc 409 "Conflict"))
        ⟨some "Namespace", none, ⟨some "app", none⟩⟩).2 =
      [K8sOp.createNamespace ⟨some "Namespace", none, ⟨some "app", none⟩⟩]
    ∧ (apply_manifest (fun _ => Except.error (Exc.apiExc 409 "Conflict"))
        ⟨some "Namespace", none, ⟨some "app", none⟩⟩).1.status = "failed" := by
  refine ⟨(c5_cluster_scoped_create_unconditional _ _ rfl).1, ?_⟩
  exact ((c5_cluster_scoped_create_unconditional _ _ rfl).2 "Conflict" rfl).1

/-- C6 counterexample: a definition with no `kind` field does not produce a
`failed` outcome with message `missing required field`: it produces status
`skipped` with reason `Unsupported kind: None`. -/
theorem c6_counterexample :
    apply_manifest (fun _ => Except.ok ()) ⟨none, none, ⟨some "x", some "ns1"⟩⟩ =
      ({ status := "skipped", reason := some "Unsupported kind: None" }, [])
    ∧ (apply_manifest (fun _ => Except.ok ())
        ⟨none, none, ⟨some "x", some "ns1"⟩⟩).1.status ≠ "failed" := by
  constructor
  · decide
  · decide

/-- C6 amended: a definition missing its `kind` field yields, for that item
only and with no API call, the skipped result with reason
`Unsupported kind: None` (the Python `None` rendering) — not a failed
outcome; a definition with a supported kind but missing `metadata.name` is
not rejected up front: the Read is issued with the absent name. -/
theorem c6_amended_missing_field_behavior (c : Client) (av : Option String)
    (md : Metadata) (nso : Option String) :
    apply_manifest c ⟨none, av, md⟩ =
      ({ status := "skipped", reason := some ("Unsupported kind: " ++ pyOptStr none) }, [])
    ∧ (apply_manifest c ⟨some "ConfigMap", av, ⟨none, nso⟩⟩).2.head? =
        some (K8sOp.readNamespaced "ConfigMap" none (nso.getD "default")) := by
  constructor
  · simp [apply_manifest]
  · have heq : apply_manifest c ⟨some "ConfigMap", av, ⟨none, nso⟩⟩ =
        applyNamespacedKind c "ConfigMap" none (nso.getD "default")
          ⟨some "ConfigMap", av, ⟨none, nso⟩⟩ := by
      simp [apply_manifest]
    rw [heq]
    exact applyNamespacedKind_trace_head c "ConfigMap" none (nso.getD "default")
      ⟨some "ConfigMap", av, ⟨none, nso⟩⟩

/-- C7: every failure result of a single apply comes from an API call the
client answered with an exception, whose text is preserved in the `error`
field; the batch loop turns every manifest into a record (nothing escapes
it); and a pre-batch failure — obtaining the client or the manifest set —
short-circuits into the single top-level 500 report with no records. -/
theorem c7_error_containment (c : Client) (manifests : List (String × Manifest))
    (emsg : String) :
    (∀ m : Manifest,
        ((apply_manifest c m).1.status = "failed" ∨ (apply_manifest c m).1.status = "error") →
        ∃ op e, op ∈ (apply_manifest c m).2 ∧ c op = Except.error e ∧
          (apply_manifest c m).1.error = some e.str)
    ∧ ((lambda_handler (Except.ok c) (Except.ok manifests)).results.getD []).length =
        manifests.length
    ∧ lambda_handler (Except.error emsg) (Except.ok manifests) =
        { statusCode := 500, message := "Error applying manifests", error := some emsg }
    ∧ lambda_handler (Except.ok c) (Except.error emsg) =
        { statusCode := 500, message := "Error applying manifests", error := some emsg } := by
  refine ⟨fun m => apply_manifest_failure_src c m, ?_, rfl, rfl⟩
  rw [lambda_handler_ok_results]
  simp

/-- C7 witness: a client failing every call with a 500 `ApiException` makes
the apply fail with that exception's text preserved. -/
theorem c7_witness :
    ∃ op e,
      op ∈ (apply_manifest (fun _ => Except.error (Exc.apiExc 500 "InternalError"))
          ⟨some "ConfigMap", none, ⟨some "x", none⟩⟩).2 ∧
      ((fun _ => Except.error (Exc.apiExc 500 "InternalError")) : Client) op =
        Except.error e ∧
      (apply_manifest (fun _ => Except.error (Exc.apiExc 500 "InternalError"))
          ⟨some "ConfigMap", none, ⟨some "x", none⟩⟩).1.error = some e.str := by
  exact (c7_error_containment (fun _ => Except.error (Exc.apiExc 500 "InternalError"))
    [] "x").1 ⟨some "ConfigMap", none, ⟨some "x", none⟩⟩ (Or.inl rfl)

/-- C8: an empty manifest set is not an error: the handler returns the
distinguished 200 response with zero per-item records. -/
theorem c8_empty_manifests_distinguished_success (c : Client) :
    lambda_handler (Except.ok c) (Except.ok []) =
      { statusCode := 200, message := "No manifest files found in S3" }
    ∧ ((lambda_handler (Except.ok c) (Except.ok [])).results.getD []).length = 0 :=
  ⟨rfl, rfl⟩

/-- C9 counterexample: a record's status can be `error` — a fourth value
outside `success`/`skipped`/`failed` — when a non-`ApiException` is raised
(source line 150). -/
theorem c9_counterexample :
    ((lambda_handler
        (Except.ok (fun _ => Except.error (Exc.otherExc "connection reset")))
        (Except.ok [("f.yaml", ⟨some "ConfigMap", none, ⟨some "x", none⟩⟩)])).results.getD
        []).map ItemRecord.status = ["error"]
    ∧ ("error" : String) ∉ (["success", "skipped", "failed"] : List String) := by
  constructor
  · decide
  · decide

/-- C9 amended: every per-item record's status is one of exactly four
values: `success`, `skipped`, `failed` or `error`. -/
theorem c9_amended_four_statuses (c : Client) (manifests : List (String × Manifest)) :
    ∀ r ∈ (lambda_handler (Except.ok c) (Except.ok manifests)).results.getD [],
      r.status = "success" ∨ r.status = "skipped" ∨ r.status = "failed" ∨
        r.status = "error" := by
  intro r hr
  rw [lambda_handler_ok_results] at hr
  rcases List.mem_map.mp hr with ⟨p, _, rfl⟩
  simpa [mkItemRecord] using apply_manifest_status c p.2

/-- C9 amended witness: the record of a successfully created namespace has
one of the four statuses. -/
theorem c9_amended_witness :
    (⟨"f.yaml", some "Namespace", some "app", "success", none, none⟩ :
        ItemRecord).status = "success"
    ∨ (⟨"f.yaml", some "Namespace", some "app", "success", none, none⟩ :
        ItemRecord).status = "skipped"
    ∨ (⟨"f.yaml", some "Namespace", some "app", "success", none, none⟩ :
        ItemRecord).status = "failed"
    ∨ (⟨"f.yaml", some "Namespace", some "app", "success", none, none⟩ :
        ItemRecord).status = "error" := by
  exact c9_amended_four_statuses (fun _ => Except.ok ())
    [("f.yaml", ⟨some "Namespace", none, ⟨some "app", none⟩⟩)]
    ⟨"f.yaml", some "Namespace", some "app", "success", none, none⟩ (by decide)

/-- C10: the kind dispatch is total: a manifest escapes the skipped branch
exactly when its kind is one of Namespace, ConfigMap, ServiceAccount,
StatefulSet (a missing kind is not among them); a skipped manifest carries
the rendered unsupported-kind reason and issues no API call; and for the
namespaced kinds the first call is the Read with the namespace resolved by
defaulting to `default`. -/
theorem c10_dispatch_total (c : Client) (m : Manifest) :
    ((m.kind = some "Namespace" ∨ m.kind = some "ConfigMap" ∨
        m.kind = some "ServiceAccount" ∨ m.kind = some "StatefulSet") ↔
      (apply_manifest c m).1.status ≠ "skipped")
    ∧ ((apply_manifest c m).1.status = "skipped" →
        (apply_manifest c m).1.reason = some ("Unsupported kind: " ++ pyOptStr m.kind) ∧
        (apply_manifest c m).2 = [])
    ∧ (∀ k, m.kind = some k →
        (k = "ConfigMap" ∨ k = "ServiceAccount" ∨ k = "StatefulSet") →
        (apply_manifest c m).2.head? =
          some (K8sOp.readNamespaced k m.metadata.name
            (m.metadata.«namespace».getD "default"))) := by
  rcases apply_manifest_cases c m with ⟨h1, hcase⟩ | ⟨k, hk, hks, heq⟩ | ⟨⟨h1, h2, h3, h4⟩, heq⟩
  · have hne : (apply_manifest c m).1.status ≠ "skipped" := by
      rcases hcase with ⟨u, _, heq⟩ | ⟨e, _, heq⟩
      · rw [heq]
        simp
      · rw [heq]
        exact excResult_status_ne_skipped e
    refine ⟨⟨fun _ => hne, fun _ => Or.inl h1⟩, fun hs => absurd hs hne, ?_⟩
    intro k hk hks
    rw [h1] at hk
    have hkk : "Namespace" = k := Option.some.inj hk
    rcases hks with h | h | h <;> rw [h] at hkk <;> exact absurd hkk (by decide)
  · have hne : (apply_manifest c m).1.status ≠ "skipped" := by
      intro hs
      rw [heq] at hs
      rcases applyNamespacedKind_status c k m.metadata.name
          (m.metadata.«namespace».getD "default") m with h | h | h <;>
        rw [hs] at h <;> exact absurd h (by decide)
    refine ⟨⟨fun _ => hne, fun _ => ?_⟩, fun hs => absurd hs hne, ?_⟩
    · rcases hks with h | h | h <;> subst h
      · exact Or.inr (Or.inl hk)
      · exact Or.inr (Or.inr (Or.inl hk))
      · exact Or.inr (Or.inr (Or.inr hk))
    · intro k' hk' hks'
      have hkk : k' = k := by
        rw [hk] at hk'
        exact (Option.some.inj hk').symm
      subst hkk
      rw [heq]
      exact applyNamespacedKind_trace_head c k' m.metadata.name
        (m.metadata.«namespace».getD "default") m
  · have hsk : (apply_manifest c m).1.status = "skipped" := by rw [heq]
    refine ⟨⟨?_, fun hne => absurd hsk hne⟩, fun _ => ?_, ?_⟩
    · intro habs
      rcases habs with h | h | h | h
      · exact (h1 h).elim
      · exact (h2 h).elim
      · exact (h3 h).elim
      · exact (h4 h).elim
    · rw [heq]
      exact ⟨rfl, rfl⟩
    · intro k' hk' hks'
      rcases hks' with h | h | h <;> subst h
      · exact absurd hk' h2
      · exact absurd hk' h3
      · exact absurd hk' h4

/-- C10 witness: a Deployment manifest (unsupported) is skipped with the
rendered reason and an empty call trace. -/
theorem c10_witness :
    (apply_manifest (fun _ => Except.ok ())
        ⟨some "Deployment", none, ⟨some "x", none⟩⟩).1.reason =
      some ("Unsupported kind: " ++ pyOptStr (some "Deployment"))
    ∧ (apply_manifest (fun _ => Except.ok ())
        ⟨some "Deployment", none, ⟨some "x", none⟩⟩).2 = [] := by
  exact (c10_dispatch_total (fun _ => Except.ok ())
    ⟨some "Deployment", none, ⟨some "x", none⟩⟩).2.1 rfl

end K8sApplier
